import Mathlib

/-!
Verification of the journal-building core of `core-processor/src/processing.rs`.

The Rust functions `process`, `process_error`, `process_success` and
`process_allowance_exceed` are shallowly embedded as Lean functions on a data
model of dispatches, journal notes and reservation contexts.  The branching and
emission logic is translated line by line from `processing.rs`; the data
carriers it consumes (messages, reply codes, the system-reservation context)
live in crates that are not part of this repository snapshot and are modelled
from the specification, as indicated by their doc comments.
-/

namespace GearProcessing

/-- Message identifiers, modelled as naturals. -/
abbrev MessageId := Nat

/-- Program (actor) identifiers, modelled as naturals. -/
abbrev ProgramId := Nat

/-- Modelled from the spec: deterministic derivation of a reply's id from the
replied-to message id (`MessageId::generate_reply`, a hash in the real code,
not under `src/`); any injective pure function is a faithful model for the
properties proved here. -/
def MessageId.generate_reply (m : MessageId) : MessageId := m + 1

/-- Modelled from the spec: the fixed size ceiling of the bounded payload type
(`Payload` in `gear_core::message`, not under `src/`).  Payload bytes are
modelled as characters of a string. -/
def maxPayloadSize : Nat := 16 * 1024 * 1024

/-- Bounded payload: a string whose length does not exceed the fixed ceiling. -/
abbrev Payload := {s : String // s.length ≤ maxPayloadSize}

/-- Fallible conversion of a text into the bounded payload type, modelling
`err_payload.into_bytes().try_into()` at `processing.rs:258-261`. -/
def payloadOfString (s : String) : Option Payload :=
  if h : s.length ≤ maxPayloadSize then some ⟨s, h⟩ else none

/-- Modelled from the spec: simple (signal-compatible) execution error codes
(`gear_core_errors::SimpleExecutionError`, not under `src/`). -/
inductive SimpleExecutionError
  | RanOutOfGas
  | MemoryOverflow
  | BackendError
  | UserspacePanic
  | UnreachableInstruction
  | StackLimitExceeded
  | Unsupported
deriving DecidableEq

/-- Modelled from the spec: the reason code carried by a system error reply
(`gear_core_errors::ErrorReplyReason`, not under `src/`); only the variants
reachable from `processing.rs` are modelled. -/
inductive ErrorReplyReason
  | Execution (e : SimpleExecutionError)
  | InactiveActor
  | ReinstrumentationFailure
deriving DecidableEq

/-- Modelled from the spec: the display text of a reply reason
(`to_string` in the source); the concrete wording is irrelevant to the claims,
only that each reason yields one fixed text. -/
def SimpleExecutionError.display : SimpleExecutionError → String
  | .RanOutOfGas => "Message ran out of gas"
  | .MemoryOverflow => "Memory overflow"
  | .BackendError => "Backend error"
  | .UserspacePanic => "Userspace panic occurred"
  | .UnreachableInstruction => "Unreachable instruction"
  | .StackLimitExceeded => "Stack limit exceeded"
  | .Unsupported => "Unsupported reason"

/-- Modelled from the spec: display text of an error-reply reason. -/
def ErrorReplyReason.display : ErrorReplyReason → String
  | .Execution e => e.display
  | .InactiveActor => "Inactive actor"
  | .ReinstrumentationFailure => "Program reinstrumentation failed"

/-- Modelled from the spec: the cap of the bounded panic text a trap
explanation may carry; the bound itself is what claim-level reasoning uses. -/
def panicBufferCap : Nat := 1024

/-- Modelled from the spec: the trap explanation attached to a trap outcome
(`gear_core::TrapExplanation`, not under `src/`); the panic text is bounded by
construction. -/
inductive TrapExplanation
  | GasLimitExceeded
  | ForbiddenFunction
  | ProgramAllocOutOfBounds
  | UserspacePanic (msg : {s : String // s.length ≤ panicBufferCap})
  | StackLimitExceeded
  | Unknown
deriving DecidableEq

/-- Modelled from the spec: actor-level execution error reply reasons
(`ActorExecutionErrorReplyReason` in `core-processor/src/common.rs`, not under
`src/`). -/
inductive ActorExecutionErrorReplyReason
  | Environment
  | Trap (t : TrapExplanation)
  | UnsupportedMessage
deriving DecidableEq

/-- Modelled from the spec: mapping of a trap explanation to its simple
(signal-compatible) error code. -/
def TrapExplanation.as_simple : TrapExplanation → SimpleExecutionError
  | .GasLimitExceeded => .RanOutOfGas
  | .ForbiddenFunction => .UnreachableInstruction
  | .ProgramAllocOutOfBounds => .MemoryOverflow
  | .UserspacePanic _ => .UserspacePanic
  | .StackLimitExceeded => .StackLimitExceeded
  | .Unknown => .UnreachableInstruction

/-- Modelled from the spec: `ActorExecutionErrorReplyReason::as_simple`. -/
def ActorExecutionErrorReplyReason.as_simple :
    ActorExecutionErrorReplyReason → SimpleExecutionError
  | .Environment => .BackendError
  | .Trap t => t.as_simple
  | .UnsupportedMessage => .Unsupported

/-- Modelled from the spec: display text of an actor execution error reason
(`to_string` in the source); for a panic trap it embeds the bounded panic
text. -/
def TrapExplanation.display : TrapExplanation → String
  | .GasLimitExceeded => "Not enough gas to continue execution"
  | .ForbiddenFunction => "Unable to call a forbidden function"
  | .ProgramAllocOutOfBounds => "Trying to allocate more memory than allowed"
  | .UserspacePanic msg => "Panic occurred: " ++ msg.val
  | .StackLimitExceeded => "Stack limit exceeded"
  | .Unknown => "Unknown reason"

/-- Modelled from the spec: display text of `ActorExecutionErrorReplyReason`. -/
def ActorExecutionErrorReplyReason.display :
    ActorExecutionErrorReplyReason → String
  | .Environment => "Environment error"
  | .Trap t => "Message ran into error while executing: " ++ t.display
  | .UnsupportedMessage => "Unsupported message"

/-- Modelled from the spec: reasons of a successful reply. -/
inductive SuccessReplyReason
  | Auto
  | Manual
deriving DecidableEq

/-- Modelled from the spec: reply code carried by reply details
(`gear_core_errors::ReplyCode`, not under `src/`). -/
inductive ReplyCode
  | Success (r : SuccessReplyReason)
  | Error (r : ErrorReplyReason)
deriving DecidableEq

/-- True when the reply code denotes an error reply. -/
def ReplyCode.is_error : ReplyCode → Bool
  | .Error _ => true
  | _ => false

/-- Modelled from the spec: reply details attached to a reply message: the id
of the message being replied to (named `to` in the source, renamed because
`to` is reserved in Lean) and the reply code. -/
structure ReplyDetails where
  to_id : MessageId
  code : ReplyCode
deriving DecidableEq

/-- Kind of a dispatch. -/
inductive DispatchKind
  | Init
  | Handle
  | Reply
  | Signal
deriving DecidableEq

/-- Modelled from the spec: the part of the stored execution context the
journal logic reads — the system reservation made in a previous execution of
the same (waited) message. -/
structure ContextStore where
  system_reservation : Option Nat
deriving DecidableEq

/-- Modelled from the spec: an incoming message (id, source, payload, gas,
value, optional reply details); its destination is implicit (the executing
program). -/
structure IncomingMessage where
  id : MessageId
  source : ProgramId
  payload : Payload
  gas_limit : Nat
  value : Nat
  details : Option ReplyDetails
deriving DecidableEq

/-- An incoming dispatch: kind, message and the optional resumption context of
previous executions. -/
structure IncomingDispatch where
  kind : DispatchKind
  message : IncomingMessage
  context : Option ContextStore
deriving DecidableEq

/-- Id of the dispatched message. -/
def IncomingDispatch.id (d : IncomingDispatch) : MessageId := d.message.id

/-- Source of the dispatched message. -/
def IncomingDispatch.source (d : IncomingDispatch) : ProgramId := d.message.source

/-- Value attached to the dispatched message. -/
def IncomingDispatch.value (d : IncomingDispatch) : Nat := d.message.value

/-- Modelled from the spec: a dispatch is a reply when its message carries
reply details. -/
def IncomingDispatch.is_reply (d : IncomingDispatch) : Bool :=
  d.message.details.isSome

/-- Modelled from the spec: a dispatch is an error reply when its reply
details carry an error reply code. -/
def IncomingDispatch.is_error_reply (d : IncomingDispatch) : Bool :=
  match d.message.details with
  | some rd => rd.code.is_error
  | none => false

/-- A stored message (destination made explicit, gas dropped). -/
structure StoredMessage where
  id : MessageId
  source : ProgramId
  destination : ProgramId
  payload : Payload
  value : Nat
  details : Option ReplyDetails
deriving DecidableEq

/-- Modelled from the spec: `IncomingMessage::into_stored` pins the executing
program as the destination. -/
def IncomingMessage.into_stored (m : IncomingMessage) (program_id : ProgramId) :
    StoredMessage :=
  { id := m.id, source := m.source, destination := program_id,
    payload := m.payload, value := m.value, details := m.details }

/-- A stored dispatch: kind, stored message, optional context. -/
structure StoredDispatch where
  kind : DispatchKind
  message : StoredMessage
  context : Option ContextStore
deriving DecidableEq

/-- Modelled from the spec: `IncomingDispatch::into_stored` keeps the kind,
stores the message and attaches the given context store. -/
def IncomingDispatch.into_stored (d : IncomingDispatch) (program_id : ProgramId)
    (context_store : Option ContextStore) : StoredDispatch :=
  { kind := d.kind, message := d.message.into_stored program_id,
    context := context_store }

/-- An outgoing message as carried by a `SendDispatch` journal note. -/
structure Message where
  id : MessageId
  source : ProgramId
  destination : ProgramId
  payload : Payload
  gas_limit : Option Nat
  value : Nat
  details : Option ReplyDetails
deriving DecidableEq

/-- An outgoing dispatch: kind plus message. -/
structure Dispatch where
  kind : DispatchKind
  message : Message
deriving DecidableEq

/-- Modelled from the spec: a reply message before being turned into a
dispatch. -/
structure ReplyMessage where
  id : MessageId
  payload : Payload
  gas_limit : Option Nat
  value : Nat
  code : ReplyCode
deriving DecidableEq

/-- Modelled from the spec: `ReplyMessage::system` — the system error reply to
`origin_msg_id`, carrying the given payload and error reason, no gas and no
value. -/
def ReplyMessage.system (origin_msg_id : MessageId) (payload : Payload)
    (err : ErrorReplyReason) : ReplyMessage :=
  { id := MessageId.generate_reply origin_msg_id, payload := payload,
    gas_limit := none, value := 0, code := .Error err }

/-- Modelled from the spec: `ReplyMessage::auto` — the fixed
auto-acknowledgement reply to `origin_msg_id`: empty payload, no value,
success code `Auto`. -/
def ReplyMessage.auto (origin_msg_id : MessageId) : ReplyMessage :=
  { id := MessageId.generate_reply origin_msg_id, payload := ⟨"", by decide⟩,
    gas_limit := none, value := 0, code := .Success .Auto }

/-- Modelled from the spec: `ReplyMessage::into_dispatch` builds a Reply-kind
dispatch from the executing program to the original sender, recording the
replied-to id and the reply code as details. -/
def ReplyMessage.into_dispatch (r : ReplyMessage) (source destination : ProgramId)
    (reply_to : MessageId) : Dispatch :=
  { kind := .Reply,
    message :=
      { id := r.id, source := source, destination := destination,
        payload := r.payload, gas_limit := r.gas_limit, value := r.value,
        details := some { to_id := reply_to, code := r.code } } }

/-- Modelled from the spec: the system reservation context computed once per
dispatch (`core-processor/src/context.rs`, not under `src/`): the reservation
made during the current execution, and the one read from the stored context of
a previous execution. -/
structure SystemReservationContext where
  current_reservation : Option Nat
  previous_reservation : Option Nat
deriving DecidableEq

/-- Modelled from the spec: `SystemReservationContext::from_dispatch` — before
execution only a previous reservation (from the dispatch's stored context) can
exist. -/
def SystemReservationContext.from_dispatch (dispatch : IncomingDispatch) :
    SystemReservationContext :=
  { current_reservation := none,
    previous_reservation := dispatch.context.bind (·.system_reservation) }

/-- Modelled from the spec: the context holds a reservation, current or
previous. -/
def SystemReservationContext.has_any (ctx : SystemReservationContext) : Bool :=
  ctx.current_reservation.isSome || ctx.previous_reservation.isSome

/-- Modelled from the spec: per-reservation state in the gas reserver map;
only `Created` and `Removed` yield journal notes. -/
inductive GasReservationState
  | Exists (amount : Nat) (finish : Nat)
  | Created (amount : Nat) (duration : Nat)
  | Removed (expiration : Nat)
deriving DecidableEq

/-- Modelled from the spec: the gas reserver, exposing its per-id states. -/
structure GasReserver where
  states : List (Nat × GasReservationState)
deriving DecidableEq

/-- Signal codes (`gear_core_errors::SignalCode`), modelled from the spec. -/
inductive SignalCode
  | Execution (e : SimpleExecutionError)
  | RemovedFromWaitlist
deriving DecidableEq

/-- Terminal classification of a fully processed dispatch
(`DispatchOutcome` in `core-processor/src/common.rs`). -/
inductive DispatchOutcome
  | Exit (program_id : ProgramId)
  | Success
  | MessageTrap (program_id : ProgramId) (trap : String)
  | InitSuccess (program_id : ProgramId)
  | InitFailure (program_id : ProgramId) (origin : ProgramId) (reason : String)
  | NoExecution
deriving DecidableEq

/-- The type of wait requested (`MessageWaitedType`), modelled from the spec. -/
inductive MessageWaitedType
  | Wait
  | WaitFor
  | WaitUpTo
  | WaitUpToFull
deriving DecidableEq

/-- Journal notes: the ordered atomic state-transition directives produced by
the builders (`JournalNote` in `core-processor/src/common.rs`); each variant
keeps the fields `processing.rs` fills in. -/
inductive JournalNote
  | GasBurned (message_id : MessageId) (amount : Nat)
  | SendValue (source : ProgramId) (to_id : Option ProgramId) (value : Nat)
  | SystemReserveGas (message_id : MessageId) (amount : Nat)
  | SystemUnreserveGas (message_id : MessageId)
  | ReserveGas (message_id : MessageId) (reservation_id : Nat)
      (program_id : ProgramId) (amount : Nat) (duration : Nat)
  | UnreserveGas (reservation_id : Nat) (program_id : ProgramId)
      (expiration : Nat)
  | UpdateGasReservations (program_id : ProgramId) (reserver : GasReserver)
  | SendSignal (message_id : MessageId) (destination : ProgramId)
      (code : SignalCode)
  | SendDispatch (message_id : MessageId) (dispatch : Dispatch) (delay : Nat)
      (reservation : Option Nat)
  | StoreNewPrograms (program_id : ProgramId) (code_id : Nat)
      (candidates : List (MessageId × ProgramId))
  | ReplyDeposit (message_id : MessageId) (future_reply_id : MessageId)
      (amount : Nat)
  | WakeMessage (message_id : MessageId) (program_id : ProgramId)
      (awakening_id : MessageId) (delay : Nat)
  | UpdatePage (program_id : ProgramId) (page_number : Nat) (data : List Nat)
  | UpdateAllocations (program_id : ProgramId) (allocations : List Nat)
  | WaitDispatch (dispatch : StoredDispatch) (duration : Option Nat)
      (waited_type : MessageWaitedType)
  | ExitDispatch (id_exited : ProgramId) (value_destination : ProgramId)
  | MessageDispatched (message_id : MessageId) (source : ProgramId)
      (outcome : DispatchOutcome)
  | MessageConsumed (message_id : MessageId)
  | StopProcessing (dispatch : StoredDispatch) (gas_burned : Nat)
deriving DecidableEq

/-- The case selector of the error builder (`ProcessErrorCase`,
`processing.rs:171-178`). -/
inductive ProcessErrorCase
  | NonExecutable
  | ExecutionFailed (reason : ActorExecutionErrorReplyReason)
  | ReinstrumentationFailed
deriving DecidableEq

/-- `ProcessErrorCase::to_reason_and_payload` (`processing.rs:181-195`):
reason code and diagnostic text of each error case. -/
def ProcessErrorCase.to_reason_and_payload :
    ProcessErrorCase → ErrorReplyReason × String
  | .NonExecutable =>
      (ErrorReplyReason.InactiveActor, ErrorReplyReason.InactiveActor.display)
  | .ExecutionFailed reason => (.Execution reason.as_simple, reason.display)
  | .ReinstrumentationFailed =>
      (ErrorReplyReason.ReinstrumentationFailure,
       ErrorReplyReason.ReinstrumentationFailure.display)

/-- The bounded payload of the synthesized error reply
(`processing.rs:255-261`); the `getD` default stands for the source's
unreachable panic branch. -/
def errorReplyPayload (case : ProcessErrorCase) : Payload :=
  (payloadOfString case.to_reason_and_payload.2).getD ⟨"", by decide⟩

/-- The synthesized system error-reply dispatch of the error builder
(`processing.rs:255-273`). -/
def system_error_reply_dispatch (dispatch : IncomingDispatch)
    (program_id : ProgramId) (case : ProcessErrorCase) : Dispatch :=
  (ReplyMessage.system dispatch.id (errorReplyPayload case)
      case.to_reason_and_payload.1).into_dispatch
    program_id dispatch.source dispatch.id

/-- The terminal outcome selected by the error builder
(`processing.rs:283-299`). -/
def error_case_outcome (dispatch : IncomingDispatch) (program_id : ProgramId)
    (case : ProcessErrorCase) : DispatchOutcome :=
  match case with
  | .ExecutionFailed _ | .ReinstrumentationFailed =>
      match dispatch.kind with
      | .Init =>
          .InitFailure program_id dispatch.source case.to_reason_and_payload.2
      | _ => .MessageTrap program_id case.to_reason_and_payload.2
  | .NonExecutable => .NoExecution

/-- `process_error` (`processing.rs:198-309`): the Error-Case Builder,
translated segment by segment in the source's emission order. -/
def process_error (dispatch : IncomingDispatch) (program_id : ProgramId)
    (gas_burned : Nat) (system_reservation_ctx : SystemReservationContext)
    (case : ProcessErrorCase) : List JournalNote :=
  [JournalNote.GasBurned dispatch.id gas_burned]
  ++ (if dispatch.context.isNone ∧ dispatch.value ≠ 0 then
        [JournalNote.SendValue dispatch.source none dispatch.value]
      else [])
  ++ (match system_reservation_ctx.current_reservation with
      | some amount => [JournalNote.SystemReserveGas dispatch.id amount]
      | none => [])
  ++ (match case with
      | .ExecutionFailed reason =>
          if system_reservation_ctx.has_any ∧ ¬dispatch.is_error_reply ∧
              ¬(dispatch.kind = .Signal ∨ dispatch.kind = .Init) then
            [JournalNote.SendSignal dispatch.id program_id
              (.Execution reason.as_simple)]
          else []
      | _ => [])
  ++ (if system_reservation_ctx.has_any then
        [JournalNote.SystemUnreserveGas dispatch.id]
      else [])
  ++ (if ¬dispatch.is_reply ∧ dispatch.kind ≠ .Signal then
        [JournalNote.SendDispatch dispatch.id
          (system_error_reply_dispatch dispatch program_id case) 0 none]
      else [])
  ++ [JournalNote.MessageDispatched dispatch.id dispatch.source
        (error_case_outcome dispatch program_id case),
      JournalNote.MessageConsumed dispatch.id]

/-- `process_execution_error` (`processing.rs:312-326`). -/
def process_execution_error (dispatch : IncomingDispatch)
    (program_id : ProgramId) (gas_burned : Nat)
    (system_reservation_ctx : SystemReservationContext)
    (err : ActorExecutionErrorReplyReason) : List JournalNote :=
  process_error dispatch program_id gas_burned system_reservation_ctx
    (.ExecutionFailed err)

/-- `process_allowance_exceed` (`processing.rs:555-572`): exactly one
`StopProcessing` note carrying the stored dispatch (context preserved) and the
gas burned so far. -/
def process_allowance_exceed (dispatch : IncomingDispatch)
    (program_id : ProgramId) (gas_burned : Nat) : List JournalNote :=
  [JournalNote.StopProcessing
    { kind := dispatch.kind, message := dispatch.message.into_stored program_id,
      context := dispatch.context }
    gas_burned]

/-- `DispatchResultKind` (`core-processor/src/common.rs`): the raw kind of an
execution result, as matched by `process` (`processing.rs:141-159`). -/
inductive DispatchResultKind
  | Trap (reason : TrapExplanation)
  | Success
  | Wait (duration : Option Nat) (waited_type : MessageWaitedType)
  | Exit (value_destination : ProgramId)
  | GasAllowanceExceed
deriving DecidableEq

/-- `SuccessfulDispatchResultKind` (`core-processor/src/precharge.rs`): the
kind handed to the success builder. -/
inductive SuccessfulDispatchResultKind
  | Success
  | Wait (duration : Option Nat) (waited_type : MessageWaitedType)
  | Exit (value_destination : ProgramId)
deriving DecidableEq

/-- The dispatch-result bundle consumed by the success builder
(`DispatchResult` in `core-processor/src/common.rs`); `gas_amount_burned`
models `gas_amount.burned()`. -/
structure DispatchResult where
  dispatch : IncomingDispatch
  generated_dispatches : List (Dispatch × Nat × Option Nat)
  awakening : List (MessageId × Nat)
  program_candidates : List (Nat × List (MessageId × ProgramId))
  gas_amount_burned : Nat
  gas_reserver : Option GasReserver
  system_reservation_context : SystemReservationContext
  page_update : List (Nat × List Nat)
  program_id : ProgramId
  context_store : Option ContextStore
  allocations : Option (List Nat)
  reply_deposits : List (MessageId × Nat)
  reply_sent : Bool
  kind : DispatchResultKind
deriving DecidableEq

/-- The delta notes produced from the gas reserver's states
(`processing.rs:402-420`): `Created` yields `ReserveGas`, `Removed` yields
`UnreserveGas`, `Exists` yields nothing. -/
def reservation_delta_notes (message_id : MessageId) (program_id : ProgramId) :
    List (Nat × GasReservationState) → List JournalNote
  | [] => []
  | (reservation_id, state) :: rest =>
    (match state with
     | .Exists _ _ => []
     | .Created amount duration =>
         [JournalNote.ReserveGas message_id reservation_id program_id amount
           duration]
     | .Removed expiration =>
         [JournalNote.UnreserveGas reservation_id program_id expiration])
    ++ reservation_delta_notes message_id program_id rest

/-- The fixed auto-acknowledgement reply dispatch (`processing.rs:463-467`). -/
def auto_reply_dispatch (dispatch : IncomingDispatch) (program_id : ProgramId) :
    Dispatch :=
  (ReplyMessage.auto dispatch.id).into_dispatch program_id dispatch.source
    dispatch.id

/-- `process_success` (`processing.rs:367-553`): the Success Builder,
translated segment by segment in the source's emission order; the Wait branch
ends the journal with `WaitDispatch` (the source's early return). -/
def process_success (kind : SuccessfulDispatchResultKind)
    (dispatch_result : DispatchResult) : List JournalNote :=
  [JournalNote.GasBurned dispatch_result.dispatch.id
    dispatch_result.gas_amount_burned]
  ++ (match dispatch_result.gas_reserver with
      | some gas_reserver =>
          reservation_delta_notes dispatch_result.dispatch.id
            dispatch_result.program_id gas_reserver.states
          ++ [JournalNote.UpdateGasReservations dispatch_result.program_id
                gas_reserver]
      | none => [])
  ++ (match dispatch_result.system_reservation_context.current_reservation with
      | some amount =>
          [JournalNote.SystemReserveGas dispatch_result.dispatch.id amount]
      | none => [])
  ++ (if dispatch_result.dispatch.context.isNone ∧
          dispatch_result.dispatch.value ≠ 0 then
        [JournalNote.SendValue dispatch_result.dispatch.source
          (some dispatch_result.program_id) dispatch_result.dispatch.value]
      else [])
  ++ dispatch_result.program_candidates.map
      (fun p => JournalNote.StoreNewPrograms dispatch_result.program_id p.1 p.2)
  ++ (if kind = SuccessfulDispatchResultKind.Success ∧
          ¬dispatch_result.reply_sent ∧
          ¬dispatch_result.dispatch.is_reply ∧
          dispatch_result.dispatch.kind ≠ .Signal then
        [JournalNote.SendDispatch dispatch_result.dispatch.id
          (auto_reply_dispatch dispatch_result.dispatch
            dispatch_result.program_id) 0 none]
      else [])
  ++ dispatch_result.reply_deposits.map
      (fun p => JournalNote.ReplyDeposit dispatch_result.dispatch.id
        (MessageId.generate_reply p.1) p.2)
  ++ dispatch_result.generated_dispatches.map
      (fun t => JournalNote.SendDispatch dispatch_result.dispatch.id t.1 t.2.1
        t.2.2)
  ++ dispatch_result.awakening.map
      (fun p => JournalNote.WakeMessage dispatch_result.dispatch.id
        dispatch_result.program_id p.1 p.2)
  ++ dispatch_result.page_update.map
      (fun p => JournalNote.UpdatePage dispatch_result.program_id p.1 p.2)
  ++ (match dispatch_result.allocations with
      | some allocations =>
          [JournalNote.UpdateAllocations dispatch_result.program_id allocations]
      | none => [])
  ++ (match kind with
      | .Wait duration waited_type =>
          [JournalNote.WaitDispatch
            (dispatch_result.dispatch.into_stored dispatch_result.program_id
              dispatch_result.context_store)
            duration waited_type]
      | .Success =>
          (if dispatch_result.system_reservation_context.has_any then
            [JournalNote.SystemUnreserveGas dispatch_result.dispatch.id]
          else [])
          ++ [JournalNote.MessageDispatched dispatch_result.dispatch.id
                dispatch_result.dispatch.source
                (match dispatch_result.dispatch.kind with
                 | .Init => .InitSuccess dispatch_result.program_id
                 | _ => .Success),
              JournalNote.MessageConsumed dispatch_result.dispatch.id]
      | .Exit value_destination =>
          [JournalNote.ExitDispatch dispatch_result.program_id
            value_destination]
          ++ (if dispatch_result.system_reservation_context.has_any then
                [JournalNote.SystemUnreserveGas dispatch_result.dispatch.id]
              else [])
          ++ [JournalNote.MessageDispatched dispatch_result.dispatch.id
                dispatch_result.dispatch.source
                (.Exit dispatch_result.program_id),
              JournalNote.MessageConsumed dispatch_result.dispatch.id])

/-- Modelled from the spec: a fatal system-level (infrastructure) execution
error; its structure is irrelevant here, only that it is propagated. -/
structure SystemExecutionError where
  message : String
deriving DecidableEq

/-- Modelled from the spec: an actor-level execution error reported by the
executor, carrying the burned gas amount and the reply reason. -/
structure ActorExecutionError where
  gas_amount_burned : Nat
  reason : ActorExecutionErrorReplyReason
deriving DecidableEq

/-- Modelled from the spec: the executor's error type, actor- or
system-level. -/
inductive ExecutionError
  | Actor (e : ActorExecutionError)
  | System (e : SystemExecutionError)
deriving DecidableEq

/-- `process` (`processing.rs:47-169`), the Outcome Classifier, embedded as a
function of the executor's result (the executor itself is an external
collaborator): routes each result kind to the matching builder and propagates
only system-level errors. -/
def process (dispatch : IncomingDispatch) (program_id : ProgramId)
    (exec_result : Except ExecutionError DispatchResult) :
    Except SystemExecutionError (List JournalNote) :=
  match exec_result with
  | .ok res =>
      .ok (match res.kind with
        | .Trap reason =>
            process_execution_error res.dispatch program_id
              res.gas_amount_burned res.system_reservation_context
              (.Trap reason)
        | .Success => process_success .Success res
        | .Wait duration waited_type =>
            process_success (.Wait duration waited_type) res
        | .Exit value_destination =>
            process_success (.Exit value_destination) res
        | .GasAllowanceExceed =>
            process_allowance_exceed dispatch program_id res.gas_amount_burned)
  | .error (.Actor e) =>
      .ok (process_execution_error dispatch program_id e.gas_amount_burned
        (SystemReservationContext.from_dispatch dispatch) e.reason)
  | .error (.System e) => .error e

/-- True for `SystemReserveGas` notes. -/
def JournalNote.isSystemReserveGas : JournalNote → Bool
  | .SystemReserveGas _ _ => true
  | _ => false

/-- True for `SystemUnreserveGas` notes. -/
def JournalNote.isSystemUnreserveGas : JournalNote → Bool
  | .SystemUnreserveGas _ => true
  | _ => false

/-- True for `SendValue` notes. -/
def JournalNote.isSendValue : JournalNote → Bool
  | .SendValue _ _ _ => true
  | _ => false

/-- True for `SendSignal` notes. -/
def JournalNote.isSendSignal : JournalNote → Bool
  | .SendSignal _ _ _ => true
  | _ => false

/-- True for `SendDispatch` notes. -/
def JournalNote.isSendDispatch : JournalNote → Bool
  | .SendDispatch _ _ _ _ => true
  | _ => false

/-- True for `StoreNewPrograms` notes. -/
def JournalNote.isStoreNewPrograms : JournalNote → Bool
  | .StoreNewPrograms _ _ _ => true
  | _ => false

/-- True for `MessageDispatched` notes. -/
def JournalNote.isMessageDispatched : JournalNote → Bool
  | .MessageDispatched _ _ _ => true
  | _ => false

/-- True for `MessageConsumed` notes. -/
def JournalNote.isMessageConsumed : JournalNote → Bool
  | .MessageConsumed _ => true
  | _ => false

/-- Every note of the reservation delta log is `ReserveGas` or `UnreserveGas`;
hence any predicate false on those two shapes counts zero there. -/
theorem countP_reservation_delta_notes (p : JournalNote → Bool)
    (h1 : ∀ mid rid pid a d, p (JournalNote.ReserveGas mid rid pid a d) = false)
    (h2 : ∀ rid pid e, p (JournalNote.UnreserveGas rid pid e) = false)
    (message_id : MessageId) (program_id : ProgramId)
    (l : List (Nat × GasReservationState)) :
    (reservation_delta_notes message_id program_id l).countP p = 0 := by
  induction l with
  | nil => simp [reservation_delta_notes]
  | cons hd tl ih =>
    obtain ⟨rid, st⟩ := hd
    cases st <;>
      simp [reservation_delta_notes, List.countP_append, List.countP_cons, ih,
        h1, h2]

/-- A mapped segment counts zero under a predicate false on every image. -/
theorem countP_map_zero {α : Type} (f : α → JournalNote)
    (p : JournalNote → Bool) (h : ∀ a, p (f a) = false) (l : List α) :
    (l.map f).countP p = 0 := by
  induction l with
  | nil => simp
  | cons hd tl ih => simp [List.countP_cons, ih, h]

/-- If a list splits as `pre ++ suf` where `pre` holds no `q`-note and `suf`
holds no `p`-note, then every `p`-note's index is strictly below every
`q`-note's index. -/
theorem lt_of_split_countP {α : Type} (p q : α → Bool) (pre suf : List α)
    (hpre : pre.countP q = 0) (hsuf : suf.countP p = 0) :
    ∀ (i j : Nat) (x y : α), (pre ++ suf)[i]? = some x → p x = true →
      (pre ++ suf)[j]? = some y → q y = true → i < j := by
  intro i j x y hix hpx hjy hqy
  have hsufview : ∀ a ∈ suf, ¬p a = true := List.countP_eq_zero.mp hsuf
  have hpreview : ∀ a ∈ pre, ¬q a = true := List.countP_eq_zero.mp hpre
  have hmem : ∀ (l : List α) (k : Nat) (a : α), l[k]? = some a → a ∈ l := by
    intro l k a h
    obtain ⟨hlt, rfl⟩ := List.getElem?_eq_some.mp h
    exact List.getElem_mem hlt
  have hi : i < pre.length := by
    by_contra hge
    push_neg at hge
    rw [List.getElem?_append_right hge] at hix
    exact absurd hpx (hsufview x (hmem _ _ _ hix))
  have hj : pre.length ≤ j := by
    by_contra hlt
    push_neg at hlt
    rw [List.getElem?_append_left hlt] at hjy
    exact absurd hqy (hpreview y (hmem _ _ _ hjy))
  omega

/-- A suffix of a list is a suffix of anything appended in front of it. -/
theorem suffix_step {α : Type} (l : List α) {t s : List α} (h : s <:+ t) :
    s <:+ l ++ t :=
  h.trans (List.suffix_append l t)

/-- A mapped segment counts zero under a predicate false on the image of every
member. -/
theorem countP_map_zero_mem {α : Type} (f : α → JournalNote)
    (p : JournalNote → Bool) (l : List α) (h : ∀ a ∈ l, p (f a) = false) :
    (l.map f).countP p = 0 := by
  induction l with
  | nil => simp
  | cons hd tl ih =>
    simp only [List.map_cons, List.countP_cons, h hd (by simp),
      ih fun a ha => h a (by simp [ha])]
    simp

/-- An empty concrete payload used by the witness fixtures. -/
def examplePayload : Payload := ⟨"", by decide⟩

/-- A plain (non-reply) incoming message fixture: id 1, source 2, no value. -/
def msgPlain : IncomingMessage :=
  { id := 1, source := 2, payload := examplePayload, gas_limit := 0,
    value := 0, details := none }

/-- An Init dispatch fixture with no value and no context. -/
def dInit : IncomingDispatch := { kind := .Init, message := msgPlain, context := none }

/-- A Handle dispatch fixture with no value and no context. -/
def dHandle : IncomingDispatch :=
  { kind := .Handle, message := msgPlain, context := none }

/-- A resumed Handle dispatch fixture: value 9 and a present context. -/
def dResumed : IncomingDispatch :=
  { kind := .Handle,
    message := { msgPlain with value := 9 },
    context := some { system_reservation := none } }

/-- A reply dispatch fixture with value 7 (scenario E shape). -/
def dReply7 : IncomingDispatch :=
  { kind := .Reply,
    message := { msgPlain with
                 value := 7,
                 details := some { to_id := 0, code := .Error .InactiveActor } },
    context := none }

/-- A minimal successful dispatch-result fixture around `dHandle`. -/
def resBase : DispatchResult :=
  { dispatch := dHandle, generated_dispatches := [], awakening := [],
    program_candidates := [], gas_amount_burned := 3, gas_reserver := none,
    system_reservation_context := ⟨none, none⟩, page_update := [],
    program_id := 7, context_store := none, allocations := none,
    reply_deposits := [], reply_sent := false, kind := .Success }

/-- C8: `process` returns an error value (producing no journal) exactly when
the executor reports a system-level error; an actor-level error yields `Ok`
with the error journal built from the attached burned gas amount, and every
successful executor result yields `Ok` with a journal. -/
theorem process_fatal_iff_system_error :
    (∀ (dispatch : IncomingDispatch) (program_id : ProgramId)
        (exec_result : Except ExecutionError DispatchResult),
      (∃ e, process dispatch program_id exec_result = .error e) ↔
        (∃ e, exec_result = .error (.System e))) ∧
    (∀ (dispatch : IncomingDispatch) (program_id : ProgramId)
        (e : ActorExecutionError),
      process dispatch program_id (.error (.Actor e)) =
        .ok (process_execution_error dispatch program_id e.gas_amount_burned
          (SystemReservationContext.from_dispatch dispatch) e.reason)) ∧
    (∀ (dispatch : IncomingDispatch) (program_id : ProgramId)
        (res : DispatchResult),
      ∃ journal, process dispatch program_id (.ok res) = .ok journal) := by
  refine ⟨?_, ?_, ?_⟩
  · intro dispatch program_id exec_result
    match exec_result with
    | .ok res => simp [process]
    | .error (.Actor e) => simp [process]
    | .error (.System e) => simp [process]
  · intro dispatch program_id e
    rfl
  · intro dispatch program_id res
    exact ⟨_, rfl⟩

/-- C3: every error-builder journal and every Success/Exit success-builder
journal ends with `MessageDispatched` immediately followed by
`MessageConsumed`; a Wait journal instead ends with `WaitDispatch` and holds
no `MessageDispatched`, no `MessageConsumed` and no `SystemUnreserveGas`; a
gas-allowance abort journal is exactly one `StopProcessing` note. -/
theorem journal_terminators :
    (∀ (dispatch : IncomingDispatch) (program_id : ProgramId)
        (gas_burned : Nat) (ctx : SystemReservationContext)
        (case : ProcessErrorCase),
      ∃ o, [JournalNote.MessageDispatched dispatch.id dispatch.source o,
            JournalNote.MessageConsumed dispatch.id] <:+
          process_error dispatch program_id gas_burned ctx case) ∧
    (∀ res : DispatchResult,
      ∃ o, [JournalNote.MessageDispatched res.dispatch.id res.dispatch.source o,
            JournalNote.MessageConsumed res.dispatch.id] <:+
          process_success .Success res) ∧
    (∀ (res : DispatchResult) (dest : ProgramId),
      ∃ o, [JournalNote.MessageDispatched res.dispatch.id res.dispatch.source o,
            JournalNote.MessageConsumed res.dispatch.id] <:+
          process_success (.Exit dest) res) ∧
    (∀ (res : DispatchResult) (duration : Option Nat)
        (waited_type : MessageWaitedType),
      ([JournalNote.WaitDispatch
          (res.dispatch.into_stored res.program_id res.context_store)
          duration waited_type] <:+
        process_success (.Wait duration waited_type) res) ∧
      (process_success (.Wait duration waited_type) res).countP
          JournalNote.isMessageDispatched = 0 ∧
      (process_success (.Wait duration waited_type) res).countP
          JournalNote.isMessageConsumed = 0 ∧
      (process_success (.Wait duration waited_type) res).countP
          JournalNote.isSystemUnreserveGas = 0) ∧
    (∀ (dispatch : IncomingDispatch) (program_id : ProgramId)
        (gas_burned : Nat),
      ∃ stored, process_allowance_exceed dispatch program_id gas_burned =
        [JournalNote.StopProcessing stored gas_burned]) := by
  refine ⟨?_, ?_, ?_, ?_, ?_⟩
  · intro dispatch program_id gas_burned ctx case
    refine ⟨error_case_outcome dispatch program_id case, ?_⟩
    unfold process_error
    repeat first
      | exact List.suffix_refl _
      | apply suffix_step
  · intro res
    refine ⟨(match res.dispatch.kind with
             | DispatchKind.Init => DispatchOutcome.InitSuccess res.program_id
             | _ => DispatchOutcome.Success), ?_⟩
    unfold process_success
    repeat first
      | exact List.suffix_refl _
      | apply suffix_step
  · intro res dest
    refine ⟨DispatchOutcome.Exit res.program_id, ?_⟩
    unfold process_success
    repeat first
      | exact List.suffix_refl _
      | apply suffix_step
  · intro res duration waited_type
    refine ⟨?_, ?_, ?_, ?_⟩
    · unfold process_success
      repeat first
        | exact List.suffix_refl _
        | apply suffix_step
    all_goals
      obtain ⟨d, gen, awk, cand, gba, gr, ⟨cur, prev⟩, pages, pid, cs, alloc,
        deps, rs, k⟩ := res
      cases gr <;> cases cur <;> cases alloc <;>
        simp [process_success, List.countP_append, List.countP_cons,
          List.countP_map, List.countP_false, Function.comp,
          JournalNote.isMessageDispatched, JournalNote.isMessageConsumed,
          JournalNote.isSystemUnreserveGas, countP_reservation_delta_notes,
          apply_ite (List.countP JournalNote.isMessageDispatched),
          apply_ite (List.countP JournalNote.isMessageConsumed),
          apply_ite (List.countP JournalNote.isSystemUnreserveGas), ite_self]
  · intro dispatch program_id gas_burned
    exact ⟨_, rfl⟩

/-- C6: a dispatch holding a resumption context never produces a `SendValue`
note, neither in the error builder nor in the success builder, whatever its
value. -/
theorem no_send_value_when_context_present :
    (∀ (dispatch : IncomingDispatch) (program_id : ProgramId)
        (gas_burned : Nat) (ctx : SystemReservationContext)
        (case : ProcessErrorCase),
      dispatch.context.isSome = true →
      (process_error dispatch program_id gas_burned ctx case).countP
          JournalNote.isSendValue = 0) ∧
    (∀ (kind : SuccessfulDispatchResultKind) (res : DispatchResult),
      res.dispatch.context.isSome = true →
      (process_success kind res).countP JournalNote.isSendValue = 0) := by
  constructor
  · intro dispatch program_id gas_burned ctx case h
    obtain ⟨c, hc⟩ := Option.isSome_iff_exists.mp h
    obtain ⟨cur, prev⟩ := ctx
    cases case <;> cases cur <;>
      simp [process_error, hc, List.countP_append, List.countP_cons,
        JournalNote.isSendValue,
        apply_ite (List.countP JournalNote.isSendValue), ite_self]
  · intro kind res h
    obtain ⟨c, hc⟩ := Option.isSome_iff_exists.mp h
    obtain ⟨d, gen, awk, cand, gba, gr, ⟨cur, prev⟩, pages, pid, cs, alloc,
      deps, rs, k⟩ := res
    simp only [] at hc
    cases kind <;> cases gr <;> cases cur <;> cases alloc <;>
      simp [process_success, hc, List.countP_append, List.countP_cons,
        List.countP_map, List.countP_false, Function.comp,
        JournalNote.isSendValue, countP_reservation_delta_notes,
        apply_ite (List.countP JournalNote.isSendValue), ite_self]

/-- C6 witness: a concrete resumed dispatch (context present, value 9)
produces no `SendValue` in the error builder. -/
theorem no_send_value_when_context_present_witness :
    dResumed.context.isSome = true ∧
    (process_error dResumed 7 5 ⟨none, none⟩ .NonExecutable).countP
        JournalNote.isSendValue = 0 :=
  ⟨rfl, no_send_value_when_context_present.1 dResumed 7 5 ⟨none, none⟩
    .NonExecutable rfl⟩

/-- The display text of any trap explanation is bounded by a small constant
plus the panic-buffer cap. -/
theorem trapExplanation_display_length_le (t : TrapExplanation) :
    t.display.length ≤ 64 + panicBufferCap := by
  cases t with
  | UserspacePanic msg =>
    have hb := msg.property
    have h16 : ("Panic occurred: ").length = 16 := by decide
    simp only [TrapExplanation.display, String.length_append]
    unfold panicBufferCap at hb ⊢
    omega
  | _ => decide

/-- C9: converting the synthesized error-reply text into the bounded payload
type succeeds for every error case: the source's unreachable panic branch
(`processing.rs:258-261`) is never taken. -/
theorem error_reply_payload_conversion_total (case : ProcessErrorCase) :
    ∃ p, payloadOfString case.to_reason_and_payload.2 = some p := by
  have hfits : case.to_reason_and_payload.2.length ≤ maxPayloadSize := by
    cases case with
    | NonExecutable => decide
    | ReinstrumentationFailed => decide
    | ExecutionFailed reason =>
      cases reason with
      | Environment => decide
      | UnsupportedMessage => decide
      | Trap t =>
        have ht := trapExplanation_display_length_le t
        have h40 :
            ("Message ran into error while executing: ").length = 40 := by
          decide
        simp only [ProcessErrorCase.to_reason_and_payload,
          ActorExecutionErrorReplyReason.display, String.length_append]
        unfold panicBufferCap at ht
        unfold maxPayloadSize
        omega
  exact ⟨⟨_, hfits⟩, dif_pos hfits⟩

/-- The error-builder journal regrouped as the notes up to and including the
(possible) `SystemReserveGas` note, followed by the rest; pure
reassociation of `process_error`. -/
theorem process_error_split (dispatch : IncomingDispatch)
    (program_id : ProgramId) (gas_burned : Nat)
    (system_reservation_ctx : SystemReservationContext)
    (case : ProcessErrorCase) :
    process_error dispatch program_id gas_burned system_reservation_ctx case =
    ([JournalNote.GasBurned dispatch.id gas_burned]
     ++ ((if dispatch.context.isNone ∧ dispatch.value ≠ 0 then
            [JournalNote.SendValue dispatch.source none dispatch.value]
          else [])
     ++ (match system_reservation_ctx.current_reservation with
         | some amount => [JournalNote.SystemReserveGas dispatch.id amount]
         | none => [])))
    ++
    ((match case with
      | .ExecutionFailed reason =>
          if system_reservation_ctx.has_any ∧ ¬dispatch.is_error_reply ∧
              ¬(dispatch.kind = .Signal ∨ dispatch.kind = .Init) then
            [JournalNote.SendSignal dispatch.id program_id
              (.Execution reason.as_simple)]
          else []
      | _ => [])
     ++ ((if system_reservation_ctx.has_any then
            [JournalNote.SystemUnreserveGas dispatch.id]
          else [])
     ++ ((if ¬dispatch.is_reply ∧ dispatch.kind ≠ .Signal then
            [JournalNote.SendDispatch dispatch.id
              (system_error_reply_dispatch dispatch program_id case) 0 none]
          else [])
     ++ [JournalNote.MessageDispatched dispatch.id dispatch.source
           (error_case_outcome dispatch program_id case),
         JournalNote.MessageConsumed dispatch.id]))) := by
  simp only [process_error, List.append_assoc]

/-- The success-builder journal regrouped as the notes up to and including the
`StoreNewPrograms` block, followed by the rest; pure reassociation of
`process_success`. -/
theorem process_success_split (kind : SuccessfulDispatchResultKind)
    (dispatch_result : DispatchResult) :
    process_success kind dispatch_result =
    ([JournalNote.GasBurned dispatch_result.dispatch.id
        dispatch_result.gas_amount_burned]
     ++ ((match dispatch_result.gas_reserver with
          | some gas_reserver =>
              reservation_delta_notes dispatch_result.dispatch.id
                dispatch_result.program_id gas_reserver.states
              ++ [JournalNote.UpdateGasReservations dispatch_result.program_id
                    gas_reserver]
          | none => [])
     ++ ((match dispatch_result.system_reservation_context.current_reservation
          with
          | some amount =>
              [JournalNote.SystemReserveGas dispatch_result.dispatch.id amount]
          | none => [])
     ++ ((if dispatch_result.dispatch.context.isNone ∧
             dispatch_result.dispatch.value ≠ 0 then
            [JournalNote.SendValue dispatch_result.dispatch.source
              (some dispatch_result.program_id)
              dispatch_result.dispatch.value]
          else [])
     ++ dispatch_result.program_candidates.map
         (fun p => JournalNote.StoreNewPrograms dispatch_result.program_id
           p.1 p.2)))))
    ++
    ((if kind = SuccessfulDispatchResultKind.Success ∧
         ¬dispatch_result.reply_sent ∧
         ¬dispatch_result.dispatch.is_reply ∧
         dispatch_result.dispatch.kind ≠ .Signal then
        [JournalNote.SendDispatch dispatch_result.dispatch.id
          (auto_reply_dispatch dispatch_result.dispatch
            dispatch_result.program_id) 0 none]
      else [])
     ++ (dispatch_result.reply_deposits.map
          (fun p => JournalNote.ReplyDeposit dispatch_result.dispatch.id
            (MessageId.generate_reply p.1) p.2)
     ++ (dispatch_result.generated_dispatches.map
          (fun t => JournalNote.SendDispatch dispatch_result.dispatch.id t.1
            t.2.1 t.2.2)
     ++ (dispatch_result.awakening.map
          (fun p => JournalNote.WakeMessage dispatch_result.dispatch.id
            dispatch_result.program_id p.1 p.2)
     ++ (dispatch_result.page_update.map
          (fun p => JournalNote.UpdatePage dispatch_result.program_id p.1 p.2)
     ++ ((match dispatch_result.allocations with
          | some allocations =>
              [JournalNote.UpdateAllocations dispatch_result.program_id
                allocations]
          | none => [])
     ++ (match kind with
         | .Wait duration waited_type =>
             [JournalNote.WaitDispatch
               (dispatch_result.dispatch.into_stored
                 dispatch_result.program_id dispatch_result.context_store)
               duration waited_type]
         | .Success =>
             (if dispatch_result.system_reservation_context.has_any then
               [JournalNote.SystemUnreserveGas dispatch_result.dispatch.id]
             else [])
             ++ [JournalNote.MessageDispatched dispatch_result.dispatch.id
                   dispatch_result.dispatch.source
                   (match dispatch_result.dispatch.kind with
                    | .Init => .InitSuccess dispatch_result.program_id
                    | _ => .Success),
                 JournalNote.MessageConsumed dispatch_result.dispatch.id]
         | .Exit value_destination =>
             [JournalNote.ExitDispatch dispatch_result.program_id
               value_destination]
             ++ ((if dispatch_result.system_reservation_context.has_any then
                    [JournalNote.SystemUnreserveGas
                      dispatch_result.dispatch.id]
                  else [])
             ++ [JournalNote.MessageDispatched dispatch_result.dispatch.id
                   dispatch_result.dispatch.source
                   (.Exit dispatch_result.program_id),
                 JournalNote.MessageConsumed
                   dispatch_result.dispatch.id])))))))) := by
  simp only [process_success, List.append_assoc]

/-- C4: in the error builder a synthesized system error-reply `SendDispatch`
note (delay 0, no reservation) is emitted exactly when the dispatch is not a
reply and its kind is not Signal; and a non-executable dispatch that is itself
a reply gets its value refunded via `SendValue` while producing no
`SendSignal` and no `SendDispatch`, ending `MessageDispatched{NoExecution}`,
`MessageConsumed`. -/
theorem error_reply_send_dispatch_iff :
    (∀ (dispatch : IncomingDispatch) (program_id : ProgramId)
        (gas_burned : Nat) (ctx : SystemReservationContext)
        (case : ProcessErrorCase),
      (process_error dispatch program_id gas_burned ctx case).filter
          JournalNote.isSendDispatch =
        if ¬dispatch.is_reply ∧ dispatch.kind ≠ .Signal then
          [JournalNote.SendDispatch dispatch.id
            (system_error_reply_dispatch dispatch program_id case) 0 none]
        else []) ∧
    (∀ (dispatch : IncomingDispatch) (program_id : ProgramId)
        (gas_burned : Nat) (ctx : SystemReservationContext),
      dispatch.context = none → dispatch.value = 7 →
      dispatch.is_reply = true →
      (JournalNote.SendValue dispatch.source none 7 ∈
        process_error dispatch program_id gas_burned ctx .NonExecutable) ∧
      (process_error dispatch program_id gas_burned ctx
          .NonExecutable).countP JournalNote.isSendSignal = 0 ∧
      (process_error dispatch program_id gas_burned ctx
          .NonExecutable).countP JournalNote.isSendDispatch = 0 ∧
      [JournalNote.MessageDispatched dispatch.id dispatch.source .NoExecution,
       JournalNote.MessageConsumed dispatch.id] <:+
        process_error dispatch program_id gas_burned ctx .NonExecutable) := by
  constructor
  · intro dispatch program_id gas_burned ctx case
    obtain ⟨cur, prev⟩ := ctx
    cases cur <;> cases case <;>
      simp [process_error, List.filter_append, List.filter_cons,
        JournalNote.isSendDispatch,
        apply_ite (List.filter JournalNote.isSendDispatch), ite_self]
  · intro dispatch program_id gas_burned ctx h1 h2 h3
    obtain ⟨cur, prev⟩ := ctx
    refine ⟨?_, ?_, ?_, ?_⟩
    · cases cur <;> simp [process_error, h1, h2]
    · cases cur <;>
        simp [process_error, List.countP_append, List.countP_cons,
          JournalNote.isSendSignal,
          apply_ite (List.countP JournalNote.isSendSignal), ite_self]
    · cases cur <;>
        simp [process_error, h3, List.countP_append, List.countP_cons,
          JournalNote.isSendDispatch,
          apply_ite (List.countP JournalNote.isSendDispatch), ite_self]
    · unfold process_error
      repeat first
        | exact List.suffix_refl _
        | apply suffix_step

/-- C4 witness: scenario E at a concrete reply dispatch with value 7 and a
non-executable destination. -/
theorem error_reply_send_dispatch_iff_witness :
    dReply7.context = none ∧ dReply7.value = 7 ∧ dReply7.is_reply = true ∧
    (JournalNote.SendValue dReply7.source none 7 ∈
      process_error dReply7 9 4 ⟨none, none⟩ .NonExecutable) ∧
    (process_error dReply7 9 4 ⟨none, none⟩ .NonExecutable).countP
        JournalNote.isSendSignal = 0 ∧
    (process_error dReply7 9 4 ⟨none, none⟩ .NonExecutable).countP
        JournalNote.isSendDispatch = 0 ∧
    [JournalNote.MessageDispatched dReply7.id dReply7.source .NoExecution,
     JournalNote.MessageConsumed dReply7.id] <:+
      process_error dReply7 9 4 ⟨none, none⟩ .NonExecutable := by
  have h := error_reply_send_dispatch_iff.2 dReply7 9 4 ⟨none, none⟩ rfl rfl rfl
  exact ⟨rfl, rfl, rfl, h.1, h.2.1, h.2.2.1, h.2.2.2⟩

/-- C5: the success builder emits the `SendDispatch` note carrying the fixed
auto-acknowledgement reply (delay 0, no reservation) exactly once when kind is
Success, no explicit reply was sent, and the dispatch is neither a reply nor a
signal — and never otherwise; stated for result bundles whose generated
sub-dispatches do not coincide with the derived auto-reply (their ids are
fresh in the source). -/
theorem success_auto_reply_exactly_once :
    ∀ (kind : SuccessfulDispatchResultKind) (res : DispatchResult),
      (∀ t ∈ res.generated_dispatches,
        t.1 ≠ auto_reply_dispatch res.dispatch res.program_id) →
      (process_success kind res).countP
          (fun n => decide (n = JournalNote.SendDispatch res.dispatch.id
            (auto_reply_dispatch res.dispatch res.program_id) 0 none)) =
        if kind = SuccessfulDispatchResultKind.Success ∧ ¬res.reply_sent ∧
            ¬res.dispatch.is_reply ∧ res.dispatch.kind ≠ .Signal then 1
        else 0 := by
  intro kind res hfresh
  obtain ⟨d, gen, awk, cand, gba, gr, ⟨cur, prev⟩, pages, pid, cs, alloc,
    deps, rs, k⟩ := res
  have hgen : (gen.map (fun t => JournalNote.SendDispatch d.id t.1 t.2.1
      t.2.2)).countP
      (fun n => decide (n = JournalNote.SendDispatch d.id
        (auto_reply_dispatch d pid) 0 none)) = 0 := by
    refine countP_map_zero_mem _ _ _ fun t ht => ?_
    simpa using fun h _ _ => hfresh t ht h
  cases kind <;> cases gr <;> cases cur <;> cases alloc <;>
    simp [process_success, List.countP_append, List.countP_cons,
      List.countP_map, List.countP_false, Function.comp_def, hgen,
      countP_reservation_delta_notes,
      apply_ite (List.countP (fun n => decide
        (n = JournalNote.SendDispatch d.id (auto_reply_dispatch d pid) 0
          none))), ite_self]

/-- C5 witness: the base fixture (Success kind, no reply sent, plain Handle
dispatch, no generated sub-dispatches) carries the auto-reply note exactly
once. -/
theorem success_auto_reply_exactly_once_witness :
    (∀ t ∈ resBase.generated_dispatches,
      t.1 ≠ auto_reply_dispatch resBase.dispatch resBase.program_id) ∧
    (process_success .Success resBase).countP
        (fun n => decide (n = JournalNote.SendDispatch resBase.dispatch.id
          (auto_reply_dispatch resBase.dispatch resBase.program_id) 0
          none)) = 1 := by
  have h := success_auto_reply_exactly_once .Success resBase
    (by simp [resBase])
  refine ⟨by simp [resBase], ?_⟩
  simpa [resBase, dHandle, msgPlain, IncomingDispatch.is_reply] using h

/-- C7: in every success-builder journal, every `StoreNewPrograms` note sits
strictly before every `SendDispatch` note (auto-reply and generated
sub-dispatches alike). -/
theorem store_new_programs_precede_send_dispatch :
    ∀ (kind : SuccessfulDispatchResultKind) (res : DispatchResult)
      (i j : Nat) (x y : JournalNote),
      (process_success kind res)[i]? = some x →
      x.isStoreNewPrograms = true →
      (process_success kind res)[j]? = some y →
      y.isSendDispatch = true → i < j := by
  intro kind res i j x y hx hpx hy hqy
  rw [process_success_split] at hx hy
  refine lt_of_split_countP JournalNote.isStoreNewPrograms
    JournalNote.isSendDispatch _ _ ?_ ?_ i j x y hx hpx hy hqy
  · cases hgr : res.gas_reserver <;>
    cases hcur : res.system_reservation_context.current_reservation <;>
      simp [hgr, hcur, List.countP_append, List.countP_cons, List.countP_map,
        List.countP_false, Function.comp_def, JournalNote.isSendDispatch,
        countP_reservation_delta_notes,
        apply_ite (List.countP JournalNote.isSendDispatch), ite_self]
  · cases kind <;> cases halloc : res.allocations <;>
      simp [halloc, List.countP_append, List.countP_cons, List.countP_map,
        List.countP_false, Function.comp_def, JournalNote.isStoreNewPrograms,
        apply_ite (List.countP JournalNote.isStoreNewPrograms), ite_self]

/-- A concrete generated sub-dispatch used by the C7 witness. -/
def subDispatch : Dispatch :=
  { kind := .Handle,
    message := { id := 5, source := 7, destination := 9,
                 payload := examplePayload, gas_limit := none, value := 0,
                 details := none } }

/-- A dispatch result with one program candidate and one generated
sub-dispatch. -/
def res7 : DispatchResult :=
  { resBase with
    program_candidates := [(11, [])],
    generated_dispatches := [(subDispatch, 0, none)] }

/-- C7 witness: in the concrete journal the `StoreNewPrograms` note (index 1)
precedes the generated `SendDispatch` note (index 3). -/
theorem store_new_programs_precede_send_dispatch_witness :
    (process_success .Success res7)[1]? =
      some (JournalNote.StoreNewPrograms 7 11 []) ∧
    (JournalNote.StoreNewPrograms 7 11 []).isStoreNewPrograms = true ∧
    (process_success .Success res7)[3]? =
      some (JournalNote.SendDispatch 1 subDispatch 0 none) ∧
    (JournalNote.SendDispatch 1 subDispatch 0 none).isSendDispatch = true ∧
    1 < 3 :=
  ⟨by decide, rfl, by decide, rfl,
   store_new_programs_precede_send_dispatch .Success res7 1 3
     (JournalNote.StoreNewPrograms 7 11 [])
     (JournalNote.SendDispatch 1 subDispatch 0 none)
     (by decide) rfl (by decide) rfl⟩

/-- C1 counterexample: at a concrete Init dispatch trapping with a system
reservation of 50, the error-builder journal holds no `SendSignal` note at
all (kind Init is excluded by the signal guard at `processing.rs:240`), so it
differs from the claimed seven-note journal that places
`SendSignal(Execution(trap_code))` third. -/
theorem init_trap_claimed_journal_refuted :
    (process_error dInit 7 100 ⟨some 50, none⟩
        (.ExecutionFailed (.Trap .Unknown))).countP
      JournalNote.isSendSignal = 0 ∧
    process_error dInit 7 100 ⟨some 50, none⟩
        (.ExecutionFailed (.Trap .Unknown)) ≠
      [JournalNote.GasBurned 1 100, JournalNote.SystemReserveGas 1 50,
       JournalNote.SendSignal 1 7
         (.Execution TrapExplanation.Unknown.as_simple),
       JournalNote.SystemUnreserveGas 1,
       JournalNote.SendDispatch 1
         (system_error_reply_dispatch dInit 7
           (.ExecutionFailed (.Trap .Unknown))) 0 none,
       JournalNote.MessageDispatched 1 2
         (.InitFailure 7 2
           (ActorExecutionErrorReplyReason.Trap .Unknown).display),
       JournalNote.MessageConsumed 1] := by decide

/-- C1 (amended): an Init dispatch (no value, not a reply) that traps with a
system reservation of 50 yields exactly
[GasBurned, SystemReserveGas(50), SystemUnreserveGas,
SendDispatch(error-reply with reason trap_code, delay 0, no reservation),
MessageDispatched{InitFailure}, MessageConsumed] — the `SendSignal` note is
suppressed because kind Init is excluded by the signal guard. -/
theorem init_trap_journal :
    ∀ (dispatch : IncomingDispatch) (program_id : ProgramId)
      (gas_burned : Nat) (t : TrapExplanation),
      dispatch.kind = .Init → dispatch.message.details = none →
      dispatch.value = 0 →
      process_error dispatch program_id gas_burned ⟨some 50, none⟩
          (.ExecutionFailed (.Trap t)) =
        [JournalNote.GasBurned dispatch.id gas_burned,
         JournalNote.SystemReserveGas dispatch.id 50,
         JournalNote.SystemUnreserveGas dispatch.id,
         JournalNote.SendDispatch dispatch.id
           (system_error_reply_dispatch dispatch program_id
             (.ExecutionFailed (.Trap t))) 0 none,
         JournalNote.MessageDispatched dispatch.id dispatch.source
           (.InitFailure program_id dispatch.source
             (ActorExecutionErrorReplyReason.Trap t).display),
         JournalNote.MessageConsumed dispatch.id] ∧
      (system_error_reply_dispatch dispatch program_id
          (.ExecutionFailed (.Trap t))).message.details =
        some ⟨dispatch.id, .Error (.Execution t.as_simple)⟩ := by
  intro dispatch program_id gas_burned t hk hd hv
  have hv' : dispatch.message.value = 0 := hv
  constructor
  · simp [process_error, hk, hd, hv, hv', IncomingDispatch.is_reply,
      IncomingDispatch.value, SystemReservationContext.has_any,
      error_case_outcome, ProcessErrorCase.to_reason_and_payload]
  · simp [system_error_reply_dispatch, ReplyMessage.system,
      ReplyMessage.into_dispatch, ProcessErrorCase.to_reason_and_payload,
      ActorExecutionErrorReplyReason.as_simple]

/-- C1 witness: the amended journal at the concrete Init fixture. -/
theorem init_trap_journal_witness :
    dInit.kind = .Init ∧ dInit.message.details = none ∧ dInit.value = 0 ∧
    (process_error dInit 7 100 ⟨some 50, none⟩
        (.ExecutionFailed (.Trap .Unknown)) =
      [JournalNote.GasBurned dInit.id 100,
       JournalNote.SystemReserveGas dInit.id 50,
       JournalNote.SystemUnreserveGas dInit.id,
       JournalNote.SendDispatch dInit.id
         (system_error_reply_dispatch dInit 7
           (.ExecutionFailed (.Trap .Unknown))) 0 none,
       JournalNote.MessageDispatched dInit.id dInit.source
         (.InitFailure 7 dInit.source
           (ActorExecutionErrorReplyReason.Trap .Unknown).display),
       JournalNote.MessageConsumed dInit.id] ∧
     (system_error_reply_dispatch dInit 7
         (.ExecutionFailed (.Trap .Unknown))).message.details =
       some ⟨dInit.id, .Error (.Execution TrapExplanation.Unknown.as_simple)⟩) :=
  ⟨rfl, rfl, rfl, init_trap_journal dInit 7 100 .Unknown rfl rfl rfl⟩

/-- C2 counterexample: a context holding only a previous reservation counts
as an existing reservation (`has_any`), yet the non-Wait error journal emits
`SystemUnreserveGas` with no `SystemReserveGas` at all — not "exactly one
`SystemReserveGas` strictly before" it. -/
theorem reservation_exists_without_reserve_note :
    (SystemReservationContext.mk none (some 5)).has_any = true ∧
    (process_error dHandle 7 1 ⟨none, some 5⟩ .NonExecutable).countP
        JournalNote.isSystemReserveGas = 0 ∧
    (process_error dHandle 7 1 ⟨none, some 5⟩ .NonExecutable).countP
        JournalNote.isSystemUnreserveGas = 1 := by decide

/-- C2 (amended): whenever the current system reservation is present and the
outcome is neither Wait nor GasAllowanceExceeded, the journal splits as
`pre ++ suf` with exactly one `SystemReserveGas` (and no `SystemUnreserveGas`)
in `pre` and exactly one `SystemUnreserveGas` (and no `SystemReserveGas`) in
`suf`: the reservation is opened once and closed once, in that order. -/
theorem system_reservation_reserved_then_unreserved :
    (∀ (dispatch : IncomingDispatch) (program_id : ProgramId)
        (gas_burned : Nat) (amount : Nat) (prev : Option Nat)
        (case : ProcessErrorCase),
      ∃ pre suf,
        process_error dispatch program_id gas_burned ⟨some amount, prev⟩
            case = pre ++ suf ∧
        pre.countP JournalNote.isSystemReserveGas = 1 ∧
        pre.countP JournalNote.isSystemUnreserveGas = 0 ∧
        suf.countP JournalNote.isSystemReserveGas = 0 ∧
        suf.countP JournalNote.isSystemUnreserveGas = 1) ∧
    (∀ (res : DispatchResult) (amount : Nat),
      res.system_reservation_context.current_reservation = some amount →
      ∃ pre suf,
        process_success .Success res = pre ++ suf ∧
        pre.countP JournalNote.isSystemReserveGas = 1 ∧
        pre.countP JournalNote.isSystemUnreserveGas = 0 ∧
        suf.countP JournalNote.isSystemReserveGas = 0 ∧
        suf.countP JournalNote.isSystemUnreserveGas = 1) ∧
    (∀ (res : DispatchResult) (amount : Nat) (dest : ProgramId),
      res.system_reservation_context.current_reservation = some amount →
      ∃ pre suf,
        process_success (.Exit dest) res = pre ++ suf ∧
        pre.countP JournalNote.isSystemReserveGas = 1 ∧
        pre.countP JournalNote.isSystemUnreserveGas = 0 ∧
        suf.countP JournalNote.isSystemReserveGas = 0 ∧
        suf.countP JournalNote.isSystemUnreserveGas = 1) := by
  refine ⟨?_, ?_, ?_⟩
  · intro dispatch program_id gas_burned amount prev case
    refine ⟨_, _, process_error_split dispatch program_id gas_burned
      ⟨some amount, prev⟩ case, ?_, ?_, ?_, ?_⟩ <;>
    cases case <;>
      simp [List.countP_append, List.countP_cons,
        JournalNote.isSystemReserveGas, JournalNote.isSystemUnreserveGas,
        SystemReservationContext.has_any,
        apply_ite (List.countP JournalNote.isSystemReserveGas),
        apply_ite (List.countP JournalNote.isSystemUnreserveGas), ite_self]
  · intro res amount hcur
    have hany : res.system_reservation_context.has_any = true := by
      simp [SystemReservationContext.has_any, hcur]
    refine ⟨_, _, process_success_split .Success res, ?_, ?_, ?_, ?_⟩ <;>
    cases hgr : res.gas_reserver <;> cases halloc : res.allocations <;>
      simp [hcur, hany, hgr, halloc, List.countP_append, List.countP_cons,
        List.countP_map, List.countP_false, Function.comp_def,
        JournalNote.isSystemReserveGas, JournalNote.isSystemUnreserveGas,
        countP_reservation_delta_notes,
        apply_ite (List.countP JournalNote.isSystemReserveGas),
        apply_ite (List.countP JournalNote.isSystemUnreserveGas), ite_self]
  · intro res amount dest hcur
    have hany : res.system_reservation_context.has_any = true := by
      simp [SystemReservationContext.has_any, hcur]
    refine ⟨_, _, process_success_split (.Exit dest) res, ?_, ?_, ?_, ?_⟩ <;>
    cases hgr : res.gas_reserver <;> cases halloc : res.allocations <;>
      simp [hcur, hany, hgr, halloc, List.countP_append, List.countP_cons,
        List.countP_map, List.countP_false, Function.comp_def,
        JournalNote.isSystemReserveGas, JournalNote.isSystemUnreserveGas,
        countP_reservation_delta_notes,
        apply_ite (List.countP JournalNote.isSystemReserveGas),
        apply_ite (List.countP JournalNote.isSystemUnreserveGas), ite_self]

/-- A success result fixture with a current system reservation of 4. -/
def res2 : DispatchResult :=
  { resBase with system_reservation_context := ⟨some 4, none⟩ }

/-- C2 witness: the reserve-then-unreserve split at the concrete fixture with
a current reservation. -/
theorem system_reservation_reserved_then_unreserved_witness :
    res2.system_reservation_context.current_reservation = some 4 ∧
    ∃ pre suf,
      process_success .Success res2 = pre ++ suf ∧
      pre.countP JournalNote.isSystemReserveGas = 1 ∧
      pre.countP JournalNote.isSystemUnreserveGas = 0 ∧
      suf.countP JournalNote.isSystemReserveGas = 0 ∧
      suf.countP JournalNote.isSystemUnreserveGas = 1 :=
  ⟨rfl, system_reservation_reserved_then_unreserved.2.1 res2 4 rfl⟩

/-- A success result fixture whose reservation context holds an active
current reservation (used to refute the unqualified unreserve claim on Wait
journals). -/
def resWait : DispatchResult :=
  { resBase with system_reservation_context := ⟨some 5, none⟩ }

/-- C10 counterexample: on a Wait outcome the success builder emits no
`SystemUnreserveGas` note even though the context holds a reservation, so
"SystemUnreserveGas is emitted iff the context holds any reservation" fails
without the non-Wait qualification. -/
theorem wait_journal_keeps_reservation_open :
    resWait.system_reservation_context.has_any = true ∧
    (process_success (.Wait (some 10) .Wait) resWait).countP
        JournalNote.isSystemUnreserveGas = 0 := by decide

/-- C10 (amended): in the error builder (always) and in the success builder, a
`SystemReserveGas` note is emitted iff the current reservation is present
(any kind), while `SystemUnreserveGas` is emitted iff the context holds any
reservation and — in the success builder — the kind is Success or Exit (not
Wait); consequently a context carrying only a previous reservation yields one
`SystemUnreserveGas` and no `SystemReserveGas` on every non-Wait journal. -/
theorem system_reservation_note_conditions :
    (∀ (dispatch : IncomingDispatch) (program_id : ProgramId)
        (gas_burned : Nat) (ctx : SystemReservationContext)
        (case : ProcessErrorCase),
      (process_error dispatch program_id gas_burned ctx case).countP
          JournalNote.isSystemReserveGas =
        (if ctx.current_reservation.isSome then 1 else 0) ∧
      (process_error dispatch program_id gas_burned ctx case).countP
          JournalNote.isSystemUnreserveGas =
        (if ctx.has_any then 1 else 0)) ∧
    (∀ (kind : SuccessfulDispatchResultKind) (res : DispatchResult),
      (process_success kind res).countP JournalNote.isSystemReserveGas =
        if res.system_reservation_context.current_reservation.isSome then 1
        else 0) ∧
    (∀ res : DispatchResult,
      (process_success .Success res).countP
          JournalNote.isSystemUnreserveGas =
        if res.system_reservation_context.has_any then 1 else 0) ∧
    (∀ (res : DispatchResult) (dest : ProgramId),
      (process_success (.Exit dest) res).countP
          JournalNote.isSystemUnreserveGas =
        if res.system_reservation_context.has_any then 1 else 0) ∧
    (∀ (dispatch : IncomingDispatch) (program_id : ProgramId)
        (gas_burned : Nat) (p : Nat) (case : ProcessErrorCase),
      (process_error dispatch program_id gas_burned ⟨none, some p⟩
          case).countP JournalNote.isSystemUnreserveGas = 1 ∧
      (process_error dispatch program_id gas_burned ⟨none, some p⟩
          case).countP JournalNote.isSystemReserveGas = 0) ∧
    (∀ (res : DispatchResult) (p : Nat),
      res.system_reservation_context = ⟨none, some p⟩ →
      (process_success .Success res).countP
          JournalNote.isSystemUnreserveGas = 1 ∧
      (process_success .Success res).countP
          JournalNote.isSystemReserveGas = 0) := by
  refine ⟨?_, ?_, ?_, ?_, ?_, ?_⟩
  · intro dispatch program_id gas_burned ctx case
    obtain ⟨cur, prev⟩ := ctx
    constructor <;>
    cases cur <;> cases case <;>
      simp [process_error, List.countP_append, List.countP_cons,
        JournalNote.isSystemReserveGas, JournalNote.isSystemUnreserveGas,
        SystemReservationContext.has_any,
        apply_ite (List.countP JournalNote.isSystemReserveGas),
        apply_ite (List.countP JournalNote.isSystemUnreserveGas), ite_self]
  · intro kind res
    cases kind <;> cases hgr : res.gas_reserver <;>
      cases hcur : res.system_reservation_context.current_reservation <;>
      cases halloc : res.allocations <;>
      simp [process_success, hgr, hcur, halloc, List.countP_append,
        List.countP_cons, List.countP_map, List.countP_false,
        Function.comp_def, JournalNote.isSystemReserveGas,
        countP_reservation_delta_notes,
        apply_ite (List.countP JournalNote.isSystemReserveGas), ite_self]
  · intro res
    cases hgr : res.gas_reserver <;>
      cases hcur : res.system_reservation_context.current_reservation <;>
      cases halloc : res.allocations <;>
      simp [process_success, hgr, hcur, halloc, List.countP_append,
        List.countP_cons, List.countP_map, List.countP_false,
        Function.comp_def, JournalNote.isSystemUnreserveGas,
        SystemReservationContext.has_any, countP_reservation_delta_notes,
        apply_ite (List.countP JournalNote.isSystemUnreserveGas), ite_self]
  · intro res dest
    cases hgr : res.gas_reserver <;>
      cases hcur : res.system_reservation_context.current_reservation <;>
      cases halloc : res.allocations <;>
      simp [process_success, hgr, hcur, halloc, List.countP_append,
        List.countP_cons, List.countP_map, List.countP_false,
        Function.comp_def, JournalNote.isSystemUnreserveGas,
        SystemReservationContext.has_any, countP_reservation_delta_notes,
        apply_ite (List.countP JournalNote.isSystemUnreserveGas), ite_self]
  · intro dispatch program_id gas_burned p case
    constructor <;>
    cases case <;>
      simp [process_error, List.countP_append, List.countP_cons,
        JournalNote.isSystemReserveGas, JournalNote.isSystemUnreserveGas,
        SystemReservationContext.has_any,
        apply_ite (List.countP JournalNote.isSystemReserveGas),
        apply_ite (List.countP JournalNote.isSystemUnreserveGas), ite_self]
  · intro res p hctx
    constructor <;>
    cases hgr : res.gas_reserver <;> cases halloc : res.allocations <;>
      simp [process_success, hgr, halloc, hctx, List.countP_append,
        List.countP_cons, List.countP_map, List.countP_false,
        Function.comp_def, JournalNote.isSystemReserveGas,
        JournalNote.isSystemUnreserveGas,
        SystemReservationContext.has_any, countP_reservation_delta_notes,
        apply_ite (List.countP JournalNote.isSystemReserveGas),
        apply_ite (List.countP JournalNote.isSystemUnreserveGas), ite_self]

/-- A success result fixture whose reservation context holds only a previous
reservation of 6. -/
def res10 : DispatchResult :=
  { resBase with system_reservation_context := ⟨none, some 6⟩ }

/-- C10 witness: a previous-only reservation yields `SystemUnreserveGas` once
and no `SystemReserveGas` on a concrete Success journal. -/
theorem system_reservation_note_conditions_witness :
    res10.system_reservation_context = ⟨none, some 6⟩ ∧
    (process_success .Success res10).countP
        JournalNote.isSystemUnreserveGas = 1 ∧
    (process_success .Success res10).countP
        JournalNote.isSystemReserveGas = 0 := by
  have h := system_reservation_note_conditions.2.2.2.2.2 res10 6 rfl
  exact ⟨rfl, h.1, h.2⟩

end GearProcessing
